import Mathlib

/-
Verification of the scan-deduplication and record-merge logic of the
rapid-mvp-scanner inventory intake application (src/src/App.js).

The source is a single React component. The shallow embedding below
models its pure core: product records, the current draft, the
addProduct commit operation (with the window.confirm dialog passed in
as an explicit boolean, as the spec's design notes prescribe), the
deleteProduct removal, the scan debounce, the lookup-client result
mapping, local-storage load/persist (with the external browser
primitives JSON.parse / JSON.stringify passed in as oracles), CSV
export, input normalization, and quantity parsing.
-/

namespace RapidScanner

/-- A product record as held in the products list and in the
currentProduct draft (App.js lines 44-50): fields janCode, productName,
quantity, expiryDate, scannedAt. Quantity is a JS number that the app
only ever sets to integer values, so it is modelled as Int. -/
structure Product where
  janCode : String
  productName : String
  quantity : Int
  expiryDate : String
  scannedAt : String
deriving DecidableEq

/-- The reset/initial value of the currentProduct draft
(App.js lines 44-50 and 355-361). -/
def emptyDraft : Product :=
  { janCode := "", productName := "", quantity := 1, expiryDate := "", scannedAt := "" }

/-- Embedding of products.findIndex(p => p.janCode === code)
(App.js line 338), returning none where JS returns -1. -/
def findDupIdx (code : String) : List Product → Option Nat
  | [] => none
  | p :: ps => if p.janCode = code then some 0 else (findDupIdx code ps).map (· + 1)

/-- The outcome of addProduct: the new products list, the new draft
value, and the message set by the branch taken (none where the source
sets no message, i.e. when the user declines the overwrite). -/
structure AddResult where
  products : List Product
  draft : Product
  message : Option String
deriving DecidableEq

/-- Embedding of addProduct (App.js lines 331-362). The blocking
window.confirm dialog is passed in as the boolean confirm. On empty
janCode the handler returns early with an instructional message and
the draft untouched; otherwise a duplicate is replaced in place when
confirmed (and nothing happens to the list when declined), a fresh code
is appended, and in every non-early-return path the draft is reset to
emptyDraft by the unconditional reset at lines 355-361. -/
def addProduct (confirm : Bool) (current : Product) (products : List Product) : AddResult :=
  if current.janCode = "" then
    { products := products, draft := current
      message := some "まず商品をスキャンしてください" }
  else
    match findDupIdx current.janCode products with
    | some i =>
      if confirm then
        { products := products.set i current, draft := emptyDraft
          message := some ("「" ++ current.productName ++ "」を更新しました") }
      else
        { products := products, draft := emptyDraft, message := none }
    | none =>
      { products := products ++ [current], draft := emptyDraft
        message := some ("「" ++ current.productName ++ "」を追加しました") }

/-- Embedding of products.filter((_, index) => index !== target)
(App.js line 405): keep the elements whose position differs from
target, counting positions from k. -/
def filterIdxNe (target : Nat) : Nat → List Product → List Product
  | _, [] => []
  | k, p :: ps => if k = target then filterIdxNe target (k + 1) ps
                  else p :: filterIdxNe target (k + 1) ps

/-- Embedding of deleteProduct (App.js lines 403-408) with the
window.confirm dialog passed in as the boolean confirm; declining
leaves the list unchanged. -/
def deleteProduct (confirm : Bool) (idx : Nat) (products : List Product) : List Product :=
  if confirm then filterIdxNe idx 0 products else products

/-- The two store mutations reachable from the UI: committing the
current draft (addProduct) and removing a row (deleteProduct). -/
inductive Op where
  | commit (confirm : Bool) (draft : Product)
  | remove (confirm : Bool) (idx : Nat)

/-- Apply one store mutation to the products list. -/
def applyOp (st : List Product) : Op → List Product
  | .commit confirm draft => (addProduct confirm draft st).products
  | .remove confirm idx => deleteProduct confirm idx st

/-- Run a sequence of store mutations. -/
def runOps (st : List Product) : List Op → List Product
  | [] => st
  | op :: ops => runOps (applyOp st op) ops

/-- The code column of the store, in display order. -/
def codes (ps : List Product) : List String := ps.map Product.janCode

/-- Embedding of the debounce guard at the top of handleScanSuccess
(App.js lines 250-255): a decoder event at time now (Date.now()
milliseconds) is discarded when now - lastScanTime < 1000, and
otherwise accepted, updating lastScanTime to now. Returns
(accepted, new lastScanTime). -/
def debounceStep (lastScanTime now : Int) : Bool × Int :=
  if now - lastScanTime < 1000 then (false, lastScanTime) else (true, now)

/-- The decoder events of one camera session, as the program runs
them: the scanner library stores the handleScanSuccess instance passed
at camera start (App.js line 201) and invokes that same function for
every decoded frame. That instance reads the lastScanTime it closed
over at registration; the setLastScanTime(now) it performs re-renders
the component but never re-registers the callback, so every decoder
event of the session runs the guard of lines 250-255 against the same
frozen closure value. -/
def sessionAccepts (closureLastScanTime : Int) (ts : List Int) : List Bool :=
  ts.map (fun t => (debounceStep closureLastScanTime t).1)

/-- Number of decoder events of one camera session that pass the
debounce guard. -/
def sessionAcceptedCount (closureLastScanTime : Int) (ts : List Int) : Nat :=
  (sessionAccepts closureLastScanTime ts).count true

/-- The info object of a JANCodeLookup response body. -/
structure ApiInfo where
  count : Int
deriving DecidableEq

/-- One candidate entry of a JANCodeLookup response body. -/
structure ApiEntry where
  itemName : String
deriving DecidableEq

/-- A JANCodeLookup response body: info and product are both optional
because the JS code truthiness-checks them before use. -/
structure ApiData where
  info : Option ApiInfo
  product : Option (List ApiEntry)
deriving DecidableEq

/-- The observable outcome of the fetch call inside fetchProductName:
either the network layer rejects (fetch or response.json throws), or a
response arrives with its ok flag, status, and the result of parsing
its JSON body. -/
inductive FetchResult where
  | netError (msg : String)
  | response (ok : Bool) (status : Nat) (body : Except String ApiData)

/-- The guard data.info && data.info.count > 0 && data.product &&
data.product.length > 0 followed by taking data.product[0]
(App.js lines 92-93): some entry when the guard passes, none otherwise. -/
def firstMatch (data : ApiData) : Option ApiEntry :=
  match data.info, data.product with
  | some info, some prods =>
    if 0 < info.count ∧ 0 < prods.length then prods.head? else none
  | _, _ => none

/-- Embedding of fetchProductName (App.js lines 76-102). The fetch and
JSON-parse outcome is passed in as fr. Every control path returns a
display string: missing API key, network or parse error, non-ok
status (the thrown Error is caught by the surrounding try), an entry
with an empty itemName (the || fallback), a matched entry, or no
match. -/
def fetchProductName (apiKey janCode : String) (fr : FetchResult) : String :=
  if apiKey = "" then "APIキー未設定 (" ++ janCode ++ ")"
  else
    match fr with
    | .netError msg => "検索エラー(" ++ janCode ++ "): " ++ msg
    | .response ok status body =>
      if ok then
        match body with
        | .error msg => "検索エラー(" ++ janCode ++ "): " ++ msg
        | .ok data =>
          match firstMatch data with
          | some entry =>
            if entry.itemName = "" then "商品名未登録(" ++ janCode ++ ")"
            else entry.itemName
          | none => "商品情報なし(" ++ janCode ++ ")"
      else "検索エラー(" ++ janCode ++ "): API応答エラー: " ++ toString status

/-- Embedding of the load-from-localStorage effect (App.js lines
411-416). stored is localStorage.getItem of the inventory key (none
when absent); parse is the external JSON.parse primitive, which either
returns a value or throws. The guard if (savedProducts) skips both
null and the empty string, leaving the initial empty list; otherwise
setProducts(JSON.parse(savedProducts)) runs with no try/catch, so a
parse exception propagates out of the effect (modelled as the error of
the Except). -/
def loadProducts (stored : Option String)
    (parse : String → Except String (List Product)) : Except String (List Product) :=
  match stored with
  | none => Except.ok []
  | some s => if s = "" then Except.ok [] else parse s

/-- The two localStorage keys the app writes (App.js lines 65-71 and
419-421). -/
structure Storage where
  inventoryProducts : Option String
  janLookupApiKey : Option String
deriving DecidableEq

/-- Embedding of the persist effect (App.js lines 419-421): whenever
products changes, localStorage.setItem stores JSON.stringify(products);
stringify is the external JSON.stringify primitive. -/
def persistProducts (stringify : List Product → String) (ps : List Product)
    (st : Storage) : Storage :=
  { st with inventoryProducts := some (stringify ps) }

/-- A commit as the UI performs it: addProduct followed synchronously
by the persistence effect on the resulting list. -/
def commitAndPersist (stringify : List Product → String) (confirm : Bool)
    (current : Product) (products : List Product) (st : Storage) :
    List Product × Storage :=
  let r := addProduct confirm current products
  (r.products, persistProducts stringify r.products st)

/-- Model of the JS Array.prototype.join(sep) used by exportCSV:
elements concatenated with sep between consecutive elements. -/
def joinWith (sep : String) : List String → String
  | [] => ""
  | [x] => x
  | x :: y :: xs => x ++ sep ++ joinWith sep (y :: xs)

/-- The CSV header cells (App.js line 372). -/
def csvHeaders : List String := ["JANコード", "商品名", "数量", "消費期限", "スキャン日時"]

/-- One CSV data row (App.js lines 377-383): janCode, quoted
productName, quantity, expiryDate, scannedAt joined by commas. -/
def csvRow (p : Product) : String :=
  joinWith ","
    [p.janCode, "\"" ++ p.productName ++ "\"", toString p.quantity, p.expiryDate, p.scannedAt]

/-- The csvContent string (App.js lines 375-384): the header line
followed by one row per product, joined by newlines. -/
def csvContent (ps : List Product) : String :=
  joinWith "\n" (joinWith "," csvHeaders :: ps.map csvRow)

/-- The UTF-8 byte-order marker prepended to the exported blob
(App.js line 387). -/
def csvBom : List Nat := [0xEF, 0xBB, 0xBF]

/-- The bytes of the exported file (App.js lines 387-388): the BOM
followed by the UTF-8 encoding of csvContent. -/
def exportBytes (ps : List Product) : List Nat :=
  csvBom ++ (csvContent ps).toUTF8.toList.map (fun b => b.toNat)

/-- Model of the JS String.prototype.trim call: drop whitespace
characters from both ends of the string. -/
def jsTrim (s : String) : String :=
  String.mk
    (((s.toList.dropWhile Char.isWhitespace).reverse.dropWhile Char.isWhitespace).reverse)

/-- Embedding of FallbackBarcodeScanner.handleSubmit (App.js lines
7-12): onScan fires with the trimmed code exactly when the trimmed
input is non-empty (JS string truthiness); none means no event is
produced. -/
def fallbackSubmit (manualCode : String) : Option String :=
  if jsTrim manualCode ≠ "" then some (jsTrim manualCode) else none

/-- The guard of handleManualSearch (App.js lines 303-307): the search
proceeds unless currentProduct.janCode is the empty string (the only
falsy string); the code is used as-is, untrimmed. -/
def manualSearchProceeds (janCode : String) : Bool := janCode ≠ ""

/-- Longest leading run of decimal digits of a character list. -/
def leadingDigits : List Char → List Char
  | [] => []
  | c :: cs => if c.isDigit then c :: leadingDigits cs else []

/-- Value of a decimal digit string. -/
def digitsToNat (ds : List Char) : Nat :=
  ds.foldl (fun acc c => acc * 10 + (c.toNat - Char.toNat '0')) 0

/-- Model of the JS parseInt(s) call at App.js line 642 for the values
an input of type number produces: skip leading whitespace, read an
optional sign, then the longest run of decimal digits; none models the
NaN result when no digit follows. (The hexadecimal 0x prefix form of
parseInt is not modelled: a number input's value never contains it.) -/
def jsParseInt (s : String) : Option Int :=
  let cs := s.toList.dropWhile Char.isWhitespace
  let signed : Int × List Char :=
    match cs with
    | '-' :: r => (-1, r)
    | '+' :: r => (1, r)
    | _ => (1, cs)
  let ds := leadingDigits signed.2
  if ds = [] then none else some (signed.1 * (digitsToNat ds : Int))

/-- Embedding of the quantity onChange handler (App.js line 642):
parseInt(e.target.value) || 1, so the NaN and 0 results (both falsy)
become 1 and every other parsed integer is stored as typed. -/
def parseQuantityInput (s : String) : Int :=
  match jsParseInt s with
  | none => 1
  | some n => if n = 0 then 1 else n

/-- The component state handleScanSuccess touches: the products list,
the currentProduct draft, and lastScanTime. -/
structure ScanState where
  products : List Product
  draft : Product
  lastScanTime : Int
deriving DecidableEq

/-- The synchronous prefix of handleScanSuccess (App.js lines 249-275),
up to the await of fetchProductName: the debounce guard, then
setCurrentProduct({...currentProduct, janCode: decodedText}). Returns
the state after this prefix and whether the event was accepted. -/
def handleScanSuccessPhase1 (st : ScanState) (decodedText : String) (now : Int) :
    ScanState × Bool :=
  if now - st.lastScanTime < 1000 then (st, false)
  else
    ({ st with lastScanTime := now
               draft := { st.draft with janCode := decodedText } }, true)

/-- The continuation of handleScanSuccess after fetchProductName
resolves (App.js lines 277-291): setCurrentProduct({...currentProduct,
janCode: decodedText, productName, scannedAt: now}). closureDraft is
the currentProduct value the continuation reads; decodedText is the
code the lookup was started for. No comparison of decodedText against
the state's current draft code occurs. -/
def handleScanSuccessPhase2 (st : ScanState) (closureDraft : Product)
    (decodedText productName nowIso : String) : ScanState :=
  { st with draft := { closureDraft with
                       janCode := decodedText
                       productName := productName
                       scannedAt := nowIso } }

/-- The continuation of handleManualSearch after fetchProductName
resolves (App.js lines 311-318): setCurrentProduct({...currentProduct,
productName, scannedAt: now}), keeping the closure's janCode. -/
def manualSearchApply (closureDraft : Product) (productName nowIso : String) : Product :=
  { closureDraft with productName := productName, scannedAt := nowIso }

/-- A record as it sits in the store in the worked examples below. -/
def prodA : Product :=
  { janCode := "4901234567894", productName := "Old Name", quantity := 1
    expiryDate := "", scannedAt := "2024-01-01T00:00:00Z" }

/-- A draft carrying the same code as prodA but different data. -/
def draftA : Product :=
  { janCode := "4901234567894", productName := "New Name", quantity := 3
    expiryDate := "2025-01-01", scannedAt := "2024-02-02T00:00:00Z" }

/-- A record with a second, distinct code. -/
def prodB : Product :=
  { janCode := "4512345678904", productName := "Other", quantity := 2
    expiryDate := "", scannedAt := "2024-01-02T00:00:00Z" }

/-- The sample record of the export scenario: code 4901234567894,
name containing a comma, quantity 2. -/
def sampleExportRecord : Product :=
  { janCode := "4901234567894", productName := "Sample, Item", quantity := 2
    expiryDate := "2025-01-01", scannedAt := "2024-01-01T00:00:00Z" }

/-- A stand-in for the external JSON.parse primitive applied to a
corrupt stored value: it throws for every input, as JSON.parse does on
an unparsable string. -/
def corruptParse : String → Except String (List Product) :=
  fun _ => Except.error "SyntaxError: Unexpected token"

/-- A concrete stand-in for the external JSON.stringify primitive,
used to instantiate persistence statements. -/
def sampleStringify : List Product → String :=
  fun ps => String.intercalate "," (codes ps)

/-- Initial component state for the stale-lookup interleaving: empty
store, empty draft, lastScanTime 0. -/
def staleSt0 : ScanState := { products := [], draft := emptyDraft, lastScanTime := 0 }

/-- State after the decoder reports code A (4901234567894) at t=5000ms
and its lookup is started. -/
def staleSt1 : ScanState := (handleScanSuccessPhase1 staleSt0 "4901234567894" 5000).1

/-- State after a second decoder event for code B (4512345678904)
arrives at t=7000ms, before A's lookup has resolved. -/
def staleSt2 : ScanState := (handleScanSuccessPhase1 staleSt1 "4512345678904" 7000).1

/-- State after A's lookup result finally arrives and its continuation
runs: the continuation reads the draft as it stands then (code B). -/
def staleFinal : ScanState :=
  handleScanSuccessPhase2 staleSt2 staleSt2.draft "4901234567894" "Stale Name"
    "2024-01-01T00:00:10Z"

/-- Helper: a code absent from every record is not found by findDupIdx. -/
theorem findDupIdx_none_iff (c : String) (ps : List Product) :
    findDupIdx c ps = none ↔ ∀ p ∈ ps, p.janCode ≠ c := by
  induction ps with
  | nil => simp [findDupIdx]
  | cons p ps ih =>
    by_cases h : p.janCode = c
    · simp [findDupIdx, h]
    · simp [findDupIdx, h, Option.map_eq_none', ih]

/-- Helper: findDupIdx returns the position of a record carrying the
searched code. -/
theorem findDupIdx_some (c : String) (ps : List Product) (i : Nat)
    (h : findDupIdx c ps = some i) : ∃ p, ps.get? i = some p ∧ p.janCode = c := by
  induction ps generalizing i with
  | nil => simp [findDupIdx] at h
  | cons p ps ih =>
    by_cases hp : p.janCode = c
    · simp only [findDupIdx, if_pos hp] at h
      cases h
      exact ⟨p, rfl, hp⟩
    · simp only [findDupIdx, if_neg hp] at h
      cases hfd : findDupIdx c ps with
      | none => rw [hfd] at h; simp at h
      | some j =>
        rw [hfd] at h
        simp only [Option.map_some'] at h
        obtain ⟨q, hq, hqc⟩ := ih j hfd
        cases h
        exact ⟨q, by simpa using hq, hqc⟩

/-- Helper: setting a position to the value it already holds is the
identity. -/
theorem set_get?_self {α : Type} (l : List α) (i : Nat) (a : α)
    (h : l.get? i = some a) : l.set i a = l := by
  induction l generalizing i with
  | nil => simp at h
  | cons x xs ih =>
    cases i with
    | zero => simp at h; simp [List.set, h]
    | succ j => simp only [List.set]; rw [ih j (by simpa using h)]

/-- Helper: filtering by position-differs-from-target yields a sublist. -/
theorem filterIdxNe_sublist (target k : Nat) (ps : List Product) :
    List.Sublist (filterIdxNe target k ps) ps := by
  induction ps generalizing k with
  | nil => exact List.Sublist.slnil
  | cons p ps ih =>
    simp only [filterIdxNe]
    by_cases h : k = target
    · rw [if_pos h]; exact List.Sublist.cons p (ih (k + 1))
    · rw [if_neg h]; exact List.Sublist.cons₂ p (ih (k + 1))

/-- Helper: filtering a list by membership in a superlist keeps it
whole. -/
theorem filter_mem_of_sublist {l' l : List String} (h : List.Sublist l' l) :
    l'.filter (fun c => decide (c ∈ l)) = l' :=
  List.filter_eq_self.mpr fun a ha => by simp [h.subset ha]

/-- C6: at the failing input — a camera session whose registered
callback closed over lastScanTime 0, with two decoder events for the
same code at 5000ms and 5500ms, less than the debounce window apart —
the program accepts both events rather than exactly one: each
invocation of the once-registered callback compares now against the
frozen closure value 0, because the setLastScanTime(now) it performs
never reaches that closure. The final conjunct shows the guard of
lines 250-255 would have discarded the second event had the updated
time 5000 reached it, as the comment above the guard intends. -/
theorem debounce_frozen_both_accepted :
    sessionAcceptedCount 0 [5000, 5500] = 2 ∧
    sessionAcceptedCount 0 [5000, 5500] ≠ 1 ∧
    (debounceStep 0 5000).1 = true ∧
    (debounceStep 0 5500).1 = true ∧
    (debounceStep 5000 5500).1 = false := by decide

/-- C7: the lookup client returns a plain display string on every
fetch outcome: the unconfigured-key placeholder, an error placeholder
carrying the code and a diagnostic on network failure, non-ok status or
body-parse failure, a no-information placeholder when the response has
no match, the first match's name when that name is non-empty, and a
name-unregistered placeholder when it is empty. -/
theorem lookup_total_contract (apiKey janCode : String) (fr : FetchResult) :
    (apiKey = "" →
      fetchProductName apiKey janCode fr = "APIキー未設定 (" ++ janCode ++ ")") ∧
    (apiKey ≠ "" → ∀ msg, fr = FetchResult.netError msg →
      fetchProductName apiKey janCode fr = "検索エラー(" ++ janCode ++ "): " ++ msg) ∧
    (apiKey ≠ "" → ∀ status body, fr = FetchResult.response false status body →
      fetchProductName apiKey janCode fr =
        "検索エラー(" ++ janCode ++ "): API応答エラー: " ++ toString status) ∧
    (apiKey ≠ "" → ∀ status msg, fr = FetchResult.response true status (Except.error msg) →
      fetchProductName apiKey janCode fr = "検索エラー(" ++ janCode ++ "): " ++ msg) ∧
    (apiKey ≠ "" → ∀ status data, fr = FetchResult.response true status (Except.ok data) →
      firstMatch data = none →
      fetchProductName apiKey janCode fr = "商品情報なし(" ++ janCode ++ ")") ∧
    (apiKey ≠ "" → ∀ status data entry,
      fr = FetchResult.response true status (Except.ok data) →
      firstMatch data = some entry → entry.itemName ≠ "" →
      fetchProductName apiKey janCode fr = entry.itemName) ∧
    (apiKey ≠ "" → ∀ status data entry,
      fr = FetchResult.response true status (Except.ok data) →
      firstMatch data = some entry → entry.itemName = "" →
      fetchProductName apiKey janCode fr = "商品名未登録(" ++ janCode ++ ")") := by
  refine ⟨?_, ?_, ?_, ?_, ?_, ?_, ?_⟩
  · intro h
    simp [fetchProductName, h]
  · intro h msg hfr
    subst hfr
    simp [fetchProductName, h]
  · intro h status body hfr
    subst hfr
    simp [fetchProductName, h]
  · intro h status msg hfr
    subst hfr
    simp [fetchProductName, h]
  · intro h status data hfr hm
    subst hfr
    simp [fetchProductName, h, hm]
  · intro h status data entry hfr hm hn
    subst hfr
    simp [fetchProductName, h, hm, hn]
  · intro h status data entry hfr hm hn
    subst hfr
    simp [fetchProductName, h, hm, hn]

/-- Witness for lookup_total_contract: a configured key and a
successful response whose first match is named Sample yields Sample. -/
theorem lookup_total_contract_witness :
    fetchProductName "key" "4901234567894"
      (FetchResult.response true 200 (Except.ok
        { info := some { count := 1 }, product := some [{ itemName := "Sample" }] })) =
      "Sample" :=
  (lookup_total_contract "key" "4901234567894" _).2.2.2.2.2.1 (by decide) 200
    { info := some { count := 1 }, product := some [{ itemName := "Sample" }] }
    { itemName := "Sample" } rfl (by decide) (by decide)

/-- C8: the export of the single sample record is the header line
followed by the expected second line, the output bytes open with the
UTF-8 byte-order marker, and in general a row lays out the columns in
the order code, quoted name, quantity, expiry, scannedAt. -/
theorem csv_export_shape :
    csvContent [sampleExportRecord] =
      "JANコード,商品名,数量,消費期限,スキャン日時\n4901234567894,\"Sample, Item\",2,2025-01-01,2024-01-01T00:00:00Z" ∧
    (exportBytes [sampleExportRecord]).take 3 = [0xEF, 0xBB, 0xBF] ∧
    ∀ p : Product, csvRow p =
      p.janCode ++ "," ++ ("\"" ++ p.productName ++ "\"") ++ "," ++ toString p.quantity ++
        "," ++ p.expiryDate ++ "," ++ p.scannedAt := by
  refine ⟨by decide, by decide, ?_⟩
  intro p
  simp [csvRow, joinWith, String.append_assoc]

/-- C9 counterexample: the whitespace-only code consisting of one
space passes the manual-search guard (only the exactly-empty string is
falsy), so a lookup is invoked for it, while its trimmed form is
empty: whitespace-only input is not rejected at that boundary. -/
theorem manual_whitespace_cx :
    manualSearchProceeds " " = true ∧ jsTrim " " = "" := by decide

/-- C9 amended: the fallback-scanner producer rejects exactly the
inputs that trim to empty and emits the trimmed, non-empty code;
the manual-search producer rejects only the exactly-empty string and
forwards the code untrimmed. -/
theorem scan_normalization_behavior (s : String) :
    (fallbackSubmit s = none ↔ jsTrim s = "") ∧
    (∀ c, fallbackSubmit s = some c → c = jsTrim s ∧ c ≠ "") ∧
    (manualSearchProceeds s = true ↔ s ≠ "") := by
  refine ⟨?_, ?_, ?_⟩
  · unfold fallbackSubmit
    by_cases h : jsTrim s = "" <;> simp [h]
  · intro c hc
    unfold fallbackSubmit at hc
    by_cases h : jsTrim s = ""
    · simp [h] at hc
    · simp [h] at hc
      exact ⟨hc.symm, hc ▸ h⟩
  · unfold manualSearchProceeds
    by_cases h : s = "" <;> simp [h]

/-- Witness for scan_normalization_behavior: the padded input
" 123 " is emitted by the fallback scanner as the trimmed non-empty
code 123. -/
theorem scan_normalization_behavior_witness :
    "123" = jsTrim " 123 " ∧ "123" ≠ "" :=
  (scan_normalization_behavior " 123 ").2.1 "123" (by decide)

/-- C10 counterexample: the quantity input string -3 is parsed by
parseInt to -3, which is truthy, so the draft quantity becomes -3,
violating the claimed invariant quantity ≥ 1. -/
theorem quantity_negative_cx :
    parseQuantityInput "-3" = -3 ∧ ¬ (1 ≤ parseQuantityInput "-3") := by decide

/-- C10 amended: a fresh draft's quantity is 1, and the quantity
onChange handler stores 1 for non-numeric input (parseInt NaN) and for
a parsed 0 (both falsy under the || 1 fallback), but stores any other
parsed integer as typed, including negative ones, so quantity ≥ 1 is
not enforced. -/
theorem quantity_parse_behavior (s : String) (n : Int) :
    emptyDraft.quantity = 1 ∧
    (jsParseInt s = none → parseQuantityInput s = 1) ∧
    (jsParseInt s = some 0 → parseQuantityInput s = 1) ∧
    (jsParseInt s = some n → n ≠ 0 → parseQuantityInput s = n) := by
  refine ⟨rfl, ?_, ?_, ?_⟩
  · intro h
    simp [parseQuantityInput, h]
  · intro h
    simp [parseQuantityInput, h]
  · intro h hn
    simp [parseQuantityInput, h, hn]

/-- Witness for quantity_parse_behavior: the non-numeric input abc
falls back to quantity 1, and the numeric input 5 is stored as 5. -/
theorem quantity_parse_behavior_witness :
    parseQuantityInput "abc" = 1 ∧ parseQuantityInput "5" = 5 :=
  ⟨(quantity_parse_behavior "abc" 0).2.1 (by decide),
   (quantity_parse_behavior "5" 5).2.2.2 (by decide) (by decide)⟩

/-- C1 counterexample: with a lookup for code A (4901234567894) in
flight, a scan for code B (4512345678904) is accepted and the draft's
code becomes B; when A's result then arrives, its continuation runs
with no code comparison and the draft's code is mutated back to A, so
the late result does overwrite the newer draft. -/
theorem stale_lookup_cx :
    (handleScanSuccessPhase1 staleSt1 "4512345678904" 7000).2 = true ∧
    staleSt2.draft.janCode = "4512345678904" ∧
    staleFinal.draft.janCode = "4901234567894" ∧
    staleFinal.draft.janCode ≠ "4512345678904" := by decide

/-- C1 amended: the lookup continuations perform no comparison of the
response's originating code against the current draft's code: the
camera-scan continuation always sets the draft's code to the code the
lookup was started for (changing it whenever that differs from the
current draft's code), and the manual-search continuation always keeps
the code captured by its closure. -/
theorem stale_lookup_overwrites (st : ScanState) (closureDraft : Product)
    (code name nowIso : String) (h : code ≠ st.draft.janCode) :
    (handleScanSuccessPhase2 st closureDraft code name nowIso).draft.janCode = code ∧
    (handleScanSuccessPhase2 st closureDraft code name nowIso).draft.janCode ≠
      st.draft.janCode ∧
    (manualSearchApply closureDraft name nowIso).janCode = closureDraft.janCode := by
  refine ⟨rfl, ?_, rfl⟩
  simpa [handleScanSuccessPhase2] using h

/-- Witness for stale_lookup_overwrites at the concrete interleaving:
applying code A's late result to the state whose draft carries code B. -/
theorem stale_lookup_overwrites_witness :
    (handleScanSuccessPhase2 staleSt2 staleSt2.draft "4901234567894" "Stale Name"
      "2024-01-01T00:00:10Z").draft.janCode = "4901234567894" ∧
    (handleScanSuccessPhase2 staleSt2 staleSt2.draft "4901234567894" "Stale Name"
      "2024-01-01T00:00:10Z").draft.janCode ≠ staleSt2.draft.janCode ∧
    (manualSearchApply staleSt2.draft "Stale Name" "2024-01-01T00:00:10Z").janCode =
      staleSt2.draft.janCode :=
  stale_lookup_overwrites staleSt2 staleSt2.draft "4901234567894" "Stale Name"
    "2024-01-01T00:00:10Z" (by decide)

/-- C2 counterexample: committing the draft draftA over the store
containing prodA (same code) without confirmation leaves the store
unchanged but resets the draft to emptyDraft instead of preserving it:
the reset at App.js lines 355-361 runs unconditionally. -/
theorem decline_overwrite_cx :
    (addProduct false draftA [prodA]).products = [prodA] ∧
    (addProduct false draftA [prodA]).draft = emptyDraft ∧
    draftA ≠ emptyDraft := by decide

/-- C2 amended: for a draft whose non-empty code is already present at
position i, commit without confirmation leaves the store entirely
unchanged but resets the draft to the empty draft (it does not
preserve it); commit with confirmation replaces the record at its
original position i, keeps the store length unchanged, and also resets
the draft. -/
theorem commit_duplicate_behavior (current : Product) (products : List Product) (i : Nat)
    (h1 : current.janCode ≠ "") (h2 : findDupIdx current.janCode products = some i) :
    (addProduct false current products).products = products ∧
    (addProduct false current products).draft = emptyDraft ∧
    (addProduct true current products).products = products.set i current ∧
    ((addProduct true current products).products).length = products.length ∧
    (addProduct true current products).draft = emptyDraft := by
  simp [addProduct, h1, h2, List.length_set]

/-- Witness for commit_duplicate_behavior: draftA over the store
containing prodA, whose shared code sits at position 0. -/
theorem commit_duplicate_behavior_witness :
    (addProduct false draftA [prodA]).products = [prodA] ∧
    (addProduct false draftA [prodA]).draft = emptyDraft ∧
    (addProduct true draftA [prodA]).products = [prodA].set 0 draftA ∧
    ((addProduct true draftA [prodA]).products).length = [prodA].length ∧
    (addProduct true draftA [prodA]).draft = emptyDraft :=
  commit_duplicate_behavior draftA [prodA] 0 (by decide) (by decide)

/-- C3 counterexample: loading from a present but unparsable stored
value propagates the JSON.parse exception out of the load effect
(there is no try/catch at App.js lines 411-416) instead of yielding
the empty store. -/
theorem corrupt_storage_cx :
    loadProducts (some "not valid json") corruptParse =
      Except.error "SyntaxError: Unexpected token" ∧
    loadProducts (some "not valid json") corruptParse ≠ Except.ok [] := by
  constructor
  · rfl
  · intro h
    have h2 : Except.error (ε := String) (α := List Product)
        "SyntaxError: Unexpected token" = Except.ok [] := h
    exact Except.noConfusion h2

/-- C3 amended: initialization yields the empty store when the key is
absent or holds the empty string, and otherwise returns exactly what
JSON.parse returns: the parsed list on success, and the propagated
parse error (not an empty store) when the value is unparsable. -/
theorem load_products_behavior (parse : String → Except String (List Product))
    (s : String) :
    loadProducts none parse = Except.ok [] ∧
    loadProducts (some "") parse = Except.ok [] ∧
    (s ≠ "" → loadProducts (some s) parse = parse s) := by
  refine ⟨rfl, rfl, fun h => ?_⟩
  simp [loadProducts, h]

/-- Witness for load_products_behavior: the non-empty stored value x
is handed to the parse primitive as-is. -/
theorem load_products_behavior_witness :
    loadProducts (some "x") corruptParse = corruptParse "x" :=
  (load_products_behavior corruptParse "x").2.2 (by decide)

/-- Helper: commit with an empty code leaves the store unchanged. -/
theorem addProduct_products_empty (confirm : Bool) (current : Product)
    (products : List Product) (h : current.janCode = "") :
    (addProduct confirm current products).products = products := by
  simp [addProduct, h]

/-- Helper: confirmed commit over a duplicate replaces the record in
place. -/
theorem addProduct_products_dup_confirm (current : Product) (products : List Product)
    (i : Nat) (h1 : current.janCode ≠ "")
    (h2 : findDupIdx current.janCode products = some i) :
    (addProduct true current products).products = products.set i current := by
  simp [addProduct, h1, h2]

/-- Helper: declined commit over a duplicate leaves the store
unchanged. -/
theorem addProduct_products_dup_decline (current : Product) (products : List Product)
    (i : Nat) (h1 : current.janCode ≠ "")
    (h2 : findDupIdx current.janCode products = some i) :
    (addProduct false current products).products = products := by
  simp [addProduct, h1, h2]

/-- Helper: commit of a fresh code appends the draft at the end. -/
theorem addProduct_products_fresh (confirm : Bool) (current : Product)
    (products : List Product) (h1 : current.janCode ≠ "")
    (h2 : findDupIdx current.janCode products = none) :
    (addProduct confirm current products).products = products ++ [current] := by
  simp [addProduct, h1, h2]

/-- Helper: replacing the duplicate in place does not change the code
column. -/
theorem codes_set_dup (s : List Product) (draft : Product) (i : Nat)
    (h : findDupIdx draft.janCode s = some i) :
    codes (s.set i draft) = codes s := by
  obtain ⟨p, hp, hpc⟩ := findDupIdx_some _ _ _ h
  show (s.set i draft).map Product.janCode = s.map Product.janCode
  rw [List.map_set]
  apply set_get?_self
  rw [List.get?_map, hp]
  simp [hpc]

/-- Helper: one store mutation preserves pairwise-distinct codes. -/
theorem applyOp_nodup (s : List Product) (op : Op) (h : (codes s).Nodup) :
    (codes (applyOp s op)).Nodup := by
  cases op with
  | commit confirm draft =>
    show (codes (addProduct confirm draft s).products).Nodup
    by_cases hc : draft.janCode = ""
    · rw [addProduct_products_empty confirm draft s hc]; exact h
    · cases hfd : findDupIdx draft.janCode s with
      | some i =>
        cases confirm with
        | true =>
          rw [addProduct_products_dup_confirm draft s i hc hfd, codes_set_dup s draft i hfd]
          exact h
        | false =>
          rw [addProduct_products_dup_decline draft s i hc hfd]; exact h
      | none =>
        rw [addProduct_products_fresh confirm draft s hc hfd]
        have hcodes : codes (s ++ [draft]) = codes s ++ [draft.janCode] := by
          simp [codes]
        rw [hcodes, List.nodup_append]
        refine ⟨h, List.nodup_singleton _, ?_⟩
        intro a ha hb
        rw [List.mem_singleton] at hb
        subst hb
        obtain ⟨p, hpmem, hpc⟩ := List.mem_map.mp ha
        exact ((findDupIdx_none_iff _ _).mp hfd p hpmem) hpc
  | remove confirm idx =>
    cases confirm with
    | true =>
      show (codes (filterIdxNe idx 0 s)).Nodup
      exact List.Nodup.sublist (List.Sublist.map _ (filterIdxNe_sublist idx 0 s)) h
    | false => exact h

/-- Helper: one store mutation keeps the already-present codes of the
new store as a sublist of the old code sequence, so the relative order
of surviving records is preserved. -/
theorem applyOp_order (s : List Product) (op : Op) :
    List.Sublist ((codes (applyOp s op)).filter (fun c => decide (c ∈ codes s)))
      (codes s) := by
  have hself : List.Sublist ((codes s).filter (fun c => decide (c ∈ codes s))) (codes s) := by
    rw [filter_mem_of_sublist (List.Sublist.refl _)]
  cases op with
  | commit confirm draft =>
    show List.Sublist ((codes (addProduct confirm draft s).products).filter
      (fun c => decide (c ∈ codes s))) (codes s)
    by_cases hc : draft.janCode = ""
    · rw [addProduct_products_empty confirm draft s hc]; exact hself
    · cases hfd : findDupIdx draft.janCode s with
      | some i =>
        cases confirm with
        | true =>
          rw [addProduct_products_dup_confirm draft s i hc hfd, codes_set_dup s draft i hfd]
          exact hself
        | false =>
          rw [addProduct_products_dup_decline draft s i hc hfd]; exact hself
      | none =>
        rw [addProduct_products_fresh confirm draft s hc hfd]
        have hcodes : codes (s ++ [draft]) = codes s ++ [draft.janCode] := by
          simp [codes]
        rw [hcodes, List.filter_append]
        have hnot : draft.janCode ∉ codes s := by
          intro hmem
          obtain ⟨p, hpmem, hpc⟩ := List.mem_map.mp hmem
          exact ((findDupIdx_none_iff _ _).mp hfd p hpmem) hpc
        have hone : List.filter (fun c => decide (c ∈ codes s)) [draft.janCode] = [] := by
          simp [List.filter, hnot]
        rw [hone, List.append_nil, filter_mem_of_sublist (List.Sublist.refl _)]
  | remove confirm idx =>
    cases confirm with
    | true =>
      have hsub : List.Sublist (codes (filterIdxNe idx 0 s)) (codes s) :=
        List.Sublist.map _ (filterIdxNe_sublist idx 0 s)
      show List.Sublist ((codes (filterIdxNe idx 0 s)).filter
        (fun c => decide (c ∈ codes s))) (codes s)
      rw [filter_mem_of_sublist hsub]
      exact hsub
    | false => exact hself

/-- Helper: pairwise-distinct codes are preserved along any operation
sequence. -/
theorem runOps_nodup (ops : List Op) (s : List Product) (h : (codes s).Nodup) :
    (codes (runOps s ops)).Nodup := by
  induction ops generalizing s with
  | nil => exact h
  | cons op ops ih => exact ih (applyOp s op) (applyOp_nodup s op h)

/-- C4: starting from a store whose codes are pairwise distinct, any
sequence of commit and remove operations yields a store whose codes
are still pairwise distinct; and every single operation keeps the
already-present codes of its result in the same relative order as the
old code sequence (they form a sublist of it), so the relative
insertion order of surviving records is preserved. -/
theorem store_uniqueness_invariant (ops : List Op) (s : List Product)
    (h : (codes s).Nodup) :
    (codes (runOps s ops)).Nodup ∧
    ∀ (op : Op) (t : List Product),
      List.Sublist ((codes (applyOp t op)).filter (fun c => decide (c ∈ codes t)))
        (codes t) :=
  ⟨runOps_nodup ops s h, fun op t => applyOp_order t op⟩

/-- Witness for store_uniqueness_invariant: overwrite prodA by draftA,
append prodB, then delete row 0, starting from the singleton store. -/
theorem store_uniqueness_invariant_witness :
    (codes (runOps [prodA]
      [Op.commit true draftA, Op.commit true prodB, Op.remove true 0])).Nodup ∧
    List.Sublist ((codes (applyOp [prodA] (Op.commit true prodB))).filter
      (fun c => decide (c ∈ codes [prodA]))) (codes [prodA]) :=
  ⟨(store_uniqueness_invariant
      [Op.commit true draftA, Op.commit true prodB, Op.remove true 0] [prodA]
      (by decide)).1,
   (store_uniqueness_invariant [] [prodA] (by decide)).2 (Op.commit true prodB) [prodA]⟩

/-- C5: committing a draft whose non-empty code is absent from the
store appends exactly one new record with that code as the last
element, leaving all prior records unchanged and in place, and the
persisted snapshot written to local storage is the serialization of
the in-memory list after the commit. -/
theorem commit_fresh_code_appends (stringify : List Product → String) (confirm : Bool)
    (current : Product) (products : List Product) (st : Storage)
    (h1 : current.janCode ≠ "") (h2 : ∀ p ∈ products, p.janCode ≠ current.janCode) :
    (commitAndPersist stringify confirm current products st).1 = products ++ [current] ∧
    (((commitAndPersist stringify confirm current products st).1).filter
      (fun p => decide (p.janCode = current.janCode))).length = 1 ∧
    (commitAndPersist stringify confirm current products st).2.inventoryProducts =
      some (stringify (products ++ [current])) := by
  have hfd : findDupIdx current.janCode products = none :=
    (findDupIdx_none_iff _ _).mpr h2
  have hp : (commitAndPersist stringify confirm current products st).1 =
      products ++ [current] := by
    show (addProduct confirm current products).products = products ++ [current]
    exact addProduct_products_fresh confirm current products h1 hfd
  refine ⟨hp, ?_, ?_⟩
  · rw [hp, List.filter_append]
    have hnil : products.filter (fun p => decide (p.janCode = current.janCode)) = [] := by
      rw [List.filter_eq_nil]
      intro p hpmem
      simp [h2 p hpmem]
    rw [hnil]
    simp
  · show (persistProducts stringify (addProduct confirm current products).products
      st).inventoryProducts = some (stringify (products ++ [current]))
    rw [persistProducts, addProduct_products_fresh confirm current products h1 hfd]

/-- Witness for commit_fresh_code_appends: draftA committed over the
store holding only prodB, whose code differs. -/
theorem commit_fresh_code_appends_witness :
    (commitAndPersist sampleStringify true draftA [prodB]
      { inventoryProducts := none, janLookupApiKey := none }).1 = [prodB] ++ [draftA] ∧
    ((((commitAndPersist sampleStringify true draftA [prodB]
      { inventoryProducts := none, janLookupApiKey := none }).1)).filter
      (fun p => decide (p.janCode = draftA.janCode))).length = 1 ∧
    (commitAndPersist sampleStringify true draftA [prodB]
      { inventoryProducts := none, janLookupApiKey := none }).2.inventoryProducts =
      some (sampleStringify ([prodB] ++ [draftA])) :=
  commit_fresh_code_appends sampleStringify true draftA [prodB]
    { inventoryProducts := none, janLookupApiKey := none } (by decide) (by decide)

end RapidScanner
